import Mathlib

/-!
# Verification of the storefront-analyzer pipeline (`src/main.py`)

Shallow embedding of the `analyze_seller` pipeline: marketplace
validation, catalog discovery (`get_seller_asins`), batch detail
enrichment (`get_product_details_batch`), category-name resolution
(`get_category_name`), strict category filtering, the eligibility
client (`OptiSageAPI.check_seller_eligibility`), verdict parsing
(`parse_eligibility_result`) and response assembly.

Remote calls are modelled by injecting the provider responses as data
(`ProviderResult` / `HttpOutcome`): a provider either returns a value or
raises, mirroring the `try/except` structure of the source.  Python
dictionaries with a fixed key set are modelled as structures whose
`Option` fields distinguish an absent key from a present value.
Machine floats only occur as `cents / 100` and `rating / 10` displayed
with a fixed number of decimals; those are modelled by exact decimal
formatting of the underlying integers.
-/

namespace Storefront

/-- Outcome of one remote-provider call: the value returned, or the
message of the exception raised.  (Python: the `try`ed call either
returns or throws.) -/
inductive ProviderResult (α : Type) where
  | ok (a : α)
  | exn (msg : String)
deriving DecidableEq

/-- One raw snapshot from the detail provider (`product` in
`get_product_details_batch`).  `none` models an absent key.
`current` models `product['stats']['current']`; `none` means `stats`
is absent or has no `current` entry, in which case the source falls
back to `[0]*25`. -/
structure RawProduct where
  asin : Option String
  title : Option String
  brand : Option String
  rootCategory : Option Int
  current : Option (List Int)
  image : Option String
  imagesCSV : Option String
  rating : Option Int
  reviewCount : Option Int
deriving DecidableEq

/-- The normalized record built by `get_product_details_batch`
(the `details` dict of lines 134-146). -/
structure Details where
  asin : String
  title : String
  brand : String
  category_id : Option Int
  category_name : Option String
  sales_rank : Int
  rating10 : Int
  review_count : Int
  rating_display : String
  current_price : String
  image_url : Option String
deriving DecidableEq

/-- One element of the eligibility response body list. -/
structure EligItem where
  asin : Option String
  isEligible : Bool
deriving DecidableEq

/-- The JSON body of the eligibility response: either a list of items
(the shape `parse_eligibility_result` inspects) or anything else. -/
inductive RespJson where
  | items (l : List EligItem)
  | nonList
deriving DecidableEq

/-- The dict shape produced by `check_seller_eligibility` and consumed
by `parse_eligibility_result` (keys `success`, `data`, `error`,
`details`; `none` models an absent key). -/
structure EligibilityDict where
  success : Option Bool
  data : Option RespJson
  error : Option String
  details : Option String
deriving DecidableEq

/-- Outcome of the HTTP POST in `check_seller_eligibility`: a response
with a status code, parsed JSON body and raw text, or a raised
`requests.RequestException`. -/
inductive HttpOutcome where
  | response (status : Nat) (body : RespJson) (text : String)
  | exn (msg : String)
deriving DecidableEq

/-- The request model (`SellerRequest`). -/
structure SellerRequest where
  seller_id : String
  marketplace : String
  category_id : Option Int
deriving DecidableEq

/-- `HTTPException(status_code, detail)`. -/
inductive ApiError where
  | http (status : Nat) (detail : String)
deriving DecidableEq

/-- The echoed `Filter_Category_ID` field: the integer, or the string
sentinel `'None'` (`req.category_id if req.category_id else 'None'`). -/
inductive FilterEcho where
  | intId (c : Int)
  | noneStr
deriving DecidableEq

/-- One formatted product of the response (lines 256-270). -/
structure FormattedProduct where
  index : Nat
  ASIN : String
  Title : String
  Brand : String
  Category : Option String
  SalesRank : Int
  Velocity : String
  Eligibility : String
  Comment : String
  Rating : String
  Reviews : String
  Price : String
  ImageURL : Option String
deriving DecidableEq

/-- The success response of `analyze_seller` (lines 272-278). -/
structure AnalysisResponse where
  Seller : String
  Marketplace : String
  Filter_Category_ID : FilterEcho
  Total_Products : Nat
  Products : List FormattedProduct
deriving DecidableEq

/-- The injected upstream world: what each provider call would return
on this request.  `categoryLookup` gives, per category id, the lookup
outcome: exception, or a dict in which the id key may be absent
(`none`), or present with an optional `name` field. -/
structure Upstream where
  finderResult : ProviderResult (List String)
  queryResult : ProviderResult (List RawProduct)
  categoryLookup : Int → ProviderResult (Option (Option String))
  eligOutcome : HttpOutcome

/-- `MAX_PRODUCTS = 30`. -/
def MAX_PRODUCTS : Nat := 30

/-- The keys of `DOMAIN_MAP` (values coincide with keys in the source). -/
def DOMAIN_MAP_KEYS : List String := ["US", "UK", "DE", "FR", "JP", "CA"]

/-- Python `str.upper()` (character-wise upper-casing; the marketplace
strings at stake are ASCII). -/
def pyUpper (s : String) : String := String.mk (s.data.map Char.toUpper)

/-- Python `s.split(',')[0]`: the characters before the first comma. -/
def firstSegment (s : String) : String :=
  String.mk (s.data.takeWhile (fun c => c ≠ ','))

/-- Python `s[:n]` character slicing. -/
def pyTake (s : String) (n : Nat) : String := String.mk (s.data.take n)

/-- Python list indexing: the element, or an `IndexError`. -/
def getIdx (l : List Int) (i : Nat) : Except String Int :=
  match l.get? i with
  | some v => Except.ok v
  | none => Except.error "list index out of range"

/-- Lines 123-127: the price fallback chain over slots 0, 13, 7, 1 of
`current_data`, with Python evaluation order (a later slot is only
indexed when every earlier slot was indexed and found nonpositive);
`current_price_cents` stays 0 when no slot is strictly positive. -/
def extractPriceCents (current : List Int) : Except String Int :=
  match getIdx current 0 with
  | Except.error e => Except.error e
  | Except.ok v0 =>
      if v0 > 0 then Except.ok v0 else
        match getIdx current 13 with
        | Except.error e => Except.error e
        | Except.ok v13 =>
            if v13 > 0 then Except.ok v13 else
              match getIdx current 7 with
              | Except.error e => Except.error e
              | Except.ok v7 =>
                  if v7 > 0 then Except.ok v7 else
                    match getIdx current 1 with
                    | Except.error e => Except.error e
                    | Except.ok v1 =>
                        if v1 > 0 then Except.ok v1 else Except.ok 0

/-- Two-digit zero-padded decimal. -/
def twoDigits (n : Nat) : String :=
  if n < 10 then "0" ++ toString n else toString n

/-- `f"${cents/100:.2f}"` for strictly positive `cents`, as exact
decimal formatting. -/
def dollarString (cents : Int) : String :=
  "$" ++ toString (cents.toNat / 100) ++ "." ++ twoDigits (cents.toNat % 100)

/-- Line 144: `f"${current_price:.2f}" if current_price else 'N/A'`
where `current_price = cents/100 if cents > 0 else None`. -/
def priceField (cents : Int) : String :=
  if cents > 0 then dollarString cents else "N/A"

/-- Insert a comma after every third digit (digits given reversed). -/
def groupRev : List Char → Nat → List Char
  | [], _ => []
  | c :: rest, k =>
      if k == 3 then
        if rest.isEmpty then c :: groupRev rest 1
        else c :: ',' :: groupRev rest 1
      else c :: groupRev rest (k + 1)

/-- Python `f"{n:,}"` thousands grouping for a natural number. -/
def commaNat (n : Nat) : String :=
  String.mk (groupRev (toString n).toList.reverse 1).reverse

/-- Python `f"{n:,}"` for an integer. -/
def commaInt (n : Int) : String :=
  if n < 0 then "-" ++ commaNat n.natAbs else commaNat n.toNat

/-- `f"{r/10:.1f}"` for the 10x-scaled rating integer, as exact
decimal formatting. -/
def ratingString (r10 : Int) : String :=
  if r10 < 0 then
    "-" ++ toString (r10.natAbs / 10) ++ "." ++ toString (r10.natAbs % 10)
  else
    toString (r10.toNat / 10) ++ "." ++ toString (r10.toNat % 10)

/-- Lines 114-120: image-URL extraction.  Python truthiness: an empty
string fails the `if product.get('image'):` test. -/
def imageOf (p : RawProduct) : Option String :=
  match p.image with
  | some s =>
      if s ≠ "" then some s else
        match p.imagesCSV with
        | some csv =>
            if csv ≠ "" then
              some ("https://m.media-amazon.com/images/I/" ++ firstSegment csv)
            else none
        | none => none
  | none =>
      match p.imagesCSV with
      | some csv =>
          if csv ≠ "" then
            some ("https://m.media-amazon.com/images/I/" ++ firstSegment csv)
          else none
      | none => none

/-- Lines 107-147, one loop iteration: `Except.ok none` is the
`continue` for a snapshot without `'asin'`; `Except.error` is an
exception escaping the loop (an `IndexError` from the price chain).
The rank guard's `isinstance(current_data, list)` conjunct is always
true here because `current` is modelled as a list. -/
def extractOne (p : RawProduct) : Except String (Option Details) :=
  match p.asin with
  | none => Except.ok none
  | some a =>
      let current := p.current.getD (List.replicate 25 0)
      match extractPriceCents current with
      | Except.error e => Except.error e
      | Except.ok cents =>
          let salesRankOpt : Option Int :=
            if h : 3 < current.length then
              if current.get ⟨3, h⟩ > 0 then some (current.get ⟨3, h⟩) else none
            else none
          let rating10 : Int := p.rating.getD 0
          let reviewCount : Int := p.reviewCount.getD 0
          Except.ok (some {
            asin := a
            title := p.title.getD "N/A"
            brand := p.brand.getD "N/A"
            category_id := p.rootCategory
            category_name := none
            sales_rank := salesRankOpt.getD 0
            rating10 := rating10
            review_count := reviewCount
            rating_display :=
              ratingString rating10 ++ "/5 (" ++ commaInt reviewCount ++ " reviews)"
            current_price := priceField cents
            image_url := imageOf p })

/-- The enrichment loop over the provider's snapshot list: skipped
snapshots contribute nothing; the first exception aborts the batch. -/
def runExtract : List RawProduct → Except String (List Details)
  | [] => Except.ok []
  | p :: rest =>
      match extractOne p with
      | Except.error e => Except.error e
      | Except.ok none => runExtract rest
      | Except.ok (some d) =>
          match runExtract rest with
          | Except.error e => Except.error e
          | Except.ok ds => Except.ok (d :: ds)

/-- `get_product_details_batch` (lines 100-150): empty input returns
`[]` before any provider call; a provider exception, or an exception
while extracting a record, becomes `RuntimeError("Product details
error: ...")`. -/
def get_product_details_batch (asins : List String)
    (queryResult : ProviderResult (List RawProduct)) : Except String (List Details) :=
  if asins.isEmpty then Except.ok []
  else
    match queryResult with
    | ProviderResult.exn m => Except.error ("Product details error: " ++ m)
    | ProviderResult.ok ps =>
        match runExtract ps with
        | Except.error e => Except.error ("Product details error: " ++ e)
        | Except.ok ds => Except.ok ds

/-- `get_seller_asins` (lines 87-98): `asins[:max_asins] if asins else []`,
with exceptions wrapped as `RuntimeError("ASIN fetch error: ...")`.
The category id given to the provider is part of the issued query; the
provider's answer to this request is injected as `finder`. -/
def get_seller_asins (finder : ProviderResult (List String))
    (max_asins : Nat) : Except String (List String) :=
  match finder with
  | ProviderResult.exn m => Except.error ("ASIN fetch error: " ++ m)
  | ProviderResult.ok asins =>
      Except.ok (if asins.isEmpty then [] else asins.take max_asins)

/-- `get_category_name` (lines 152-159): any exception yields the
sentinel; an absent or falsy category object, or an object without
`name`, yields `'Unknown Category'`. -/
def get_category_name (lookup : ProviderResult (Option (Option String))) : String :=
  match lookup with
  | ProviderResult.exn _ => "Category Lookup Failed"
  | ProviderResult.ok none => "Unknown Category"
  | ProviderResult.ok (some none) => "Unknown Category"
  | ProviderResult.ok (some (some name)) => name

/-- Step 3a (lines 220-227): `if cid and cid != 'N/A'` — a missing
root category (`'N/A'`) or the falsy id `0` yields `'Unknown'`. -/
def resolveCategoryName (lookup : Int → ProviderResult (Option (Option String)))
    (cid : Option Int) : String :=
  match cid with
  | some c => if c ≠ 0 then get_category_name (lookup c) else "Unknown"
  | none => "Unknown"

/-- `str(cid)` where `cid = details['category_id']` is the root
category int or the string `'N/A'`. -/
def cidStr : Option Int → String
  | some c => toString c
  | none => "N/A"

/-- Line 189: `str(req.category_id) if req.category_id else None` —
Python truthiness makes `0` behave as no filter. -/
def requestedCategoryStr : Option Int → Option String
  | some c => if c ≠ 0 then some (toString c) else none
  | none => none

/-- Line 234: keep the product when no filter was requested or
`str(cid)` equals the requested category string. -/
def keepProduct (requested : Option String) (d : Details) : Bool :=
  match requested with
  | none => true
  | some s => cidStr d.category_id == s

/-- `f"{req.category_id}"` (an int, or `None` printed as `'None'`). -/
def catIdRepr : Option Int → String
  | some c => toString c
  | none => "None"

/-- Lines 203-205: the empty-discovery 404 message; the category
detail appears only when `req.category_id` is truthy. -/
def discoveryNotFoundMsg (category_id : Option Int) : String :=
  "No ASINs found for this seller" ++
    (match category_id with
     | some c => if c ≠ 0 then " in Category ID " ++ toString c else ""
     | none => "") ++ "."

/-- Line 239: the post-strict-filter 404 message. -/
def postFilterNotFoundMsg (category_id : Option Int) : String :=
  "No products matched the Seller ID and the strict filter for Category ID " ++
    catIdRepr category_id ++ " after fetching."

/-- Line 187: the invalid-marketplace 400 message (with the Python
repr of `list(DOMAIN_MAP.keys())`). -/
def unsupportedMsg (marketplace : String) : String :=
  "Unsupported marketplace '" ++ marketplace ++
    "'. Use one of: ['US', 'UK', 'DE', 'FR', 'JP', 'CA']"

/-- `OptiSageAPI.check_seller_eligibility` (lines 61-84): an empty
token, a non-200 status or a transport exception all become a
`success: False` dict; a 200 response becomes `success: True` with the
parsed body under `data`. -/
def check_seller_eligibility (bearer_token : String)
    (outcome : HttpOutcome) : EligibilityDict :=
  if bearer_token = "" then
    { success := some false, data := none,
      error := some "No OptiSage token provided", details := none }
  else
    match outcome with
    | HttpOutcome.response status body text =>
        if status = 200 then
          { success := some true, data := some body, error := none, details := none }
        else
          { success := some false, data := none,
            error := some ("API Error " ++ toString status), details := some text }
    | HttpOutcome.exn m =>
        { success := some false, data := none,
          error := some ("Request failed: " ++ m), details := none }

/-- The `for item in eligibility_data['data']` loop: the first item
whose `asin` equals the requested one decides the verdict. -/
def findVerdict (l : List EligItem) (a : String) : Option Bool :=
  match l with
  | [] => none
  | it :: rest => if it.asin == some a then some it.isEligible else findVerdict rest a

/-- `parse_eligibility_result` (lines 161-180).  `none` as first
argument models a falsy `eligibility_data`.  Items are modelled
well-formed dicts, so the `except` branch of the source cannot fire. -/
def parse_eligibility_result (e : Option EligibilityDict) (a : String) : String × String :=
  match e with
  | none => ("❓ API Error", "No eligibility data received")
  | some d =>
      match d.data with
      | some (RespJson.items l) =>
          match findVerdict l a with
          | some true => ("✅ Eligible", "Seller is eligible to sell this product")
          | some false => ("❌ Restricted", "Seller is not eligible to sell this product")
          | none => ("⚠️ Not Found", "ASIN not found in eligibility results")
      | _ =>
          if (d.success.getD true) = false then
            ("❓ API Error",
              d.error.getD "OptiSage API failed" ++ ": " ++
                pyTake (d.details.getD "") 50 ++ "...")
          else
            ("⚠️ Not Found", "ASIN not found in eligibility results")

/-- Lines 254-270: one formatted product. -/
def formatOne (elig : EligibilityDict) (displayIdx : Nat) (p : Details) : FormattedProduct :=
  let parsed := parse_eligibility_result (some elig) p.asin
  { index := displayIdx
    ASIN := p.asin
    Title := p.title
    Brand := p.brand
    Category := p.category_name
    SalesRank := p.sales_rank
    Velocity := if p.sales_rank < 50000 then "🚀 YES (< 50K)" else "SLOW (> 50K)"
    Eligibility := parsed.1
    Comment := parsed.2
    Rating := p.rating_display
    Reviews := toString p.review_count
    Price := p.current_price
    ImageURL := p.image_url }

/-- `for idx, p in enumerate(final_products)` with 1-based display
index, in list order. -/
def formatFrom (elig : EligibilityDict) (displayIdx : Nat) :
    List Details → List FormattedProduct
  | [] => []
  | p :: rest => formatOne elig displayIdx p :: formatFrom elig (displayIdx + 1) rest

/-- Line 275: the echoed filter. -/
def filterEcho : Option Int → FilterEcho
  | some c => if c ≠ 0 then FilterEcho.intId c else FilterEcho.noneStr
  | none => FilterEcho.noneStr

/-- Step 3a applied to every enriched record: fill `category_name`. -/
def namedProducts (up : Upstream) (products : List Details) : List Details :=
  products.map (fun p =>
    { p with category_name := some (resolveCategoryName up.categoryLookup p.category_id) })

/-- Step 3b: the `final_products` list — category names filled, then
the strict filter of line 234 applied. -/
def finalProductsOf (req : SellerRequest) (up : Upstream)
    (products : List Details) : List Details :=
  (namedProducts up products).filter (keepProduct (requestedCategoryStr req.category_id))

/-- Steps 1-3 of `analyze_seller` (lines 185-239): validation,
discovery, enrichment, per-item category naming, strict filtering and
the post-filter emptiness check.  Returns the `final_products` list or
the `HTTPException` raised on the way. -/
def pipelineFiltered (req : SellerRequest) (up : Upstream) :
    Except ApiError (List Details) :=
  if ¬ DOMAIN_MAP_KEYS.contains (pyUpper req.marketplace) then
    Except.error (ApiError.http 400 (unsupportedMsg req.marketplace))
  else
    match get_seller_asins up.finderResult MAX_PRODUCTS with
    | Except.error e => Except.error (ApiError.http 502 ("Keepa ASIN Fetch Error: " ++ e))
    | Except.ok asins =>
        if asins.isEmpty then
          Except.error (ApiError.http 404 (discoveryNotFoundMsg req.category_id))
        else
          match get_product_details_batch asins up.queryResult with
          | Except.error e =>
              Except.error (ApiError.http 502 ("Keepa Product Details Error: " ++ e))
          | Except.ok products =>
              if (finalProductsOf req up products).isEmpty
                  && (requestedCategoryStr req.category_id).isSome then
                Except.error (ApiError.http 404 (postFilterNotFoundMsg req.category_id))
              else
                Except.ok (finalProductsOf req up products)

/-- `analyze_seller` (lines 184-278).  The bearer token is the
startup-validated `OPTISAGE_TOKEN`.  Steps 4-5 never raise: the
eligibility dict (even a failed one) is threaded into every formatted
record. -/
def analyze_seller (token : String) (req : SellerRequest) (up : Upstream) :
    Except ApiError AnalysisResponse :=
  match pipelineFiltered req up with
  | Except.error e => Except.error e
  | Except.ok finalProducts =>
      Except.ok {
        Seller := req.seller_id
        Marketplace := pyUpper req.marketplace
        Filter_Category_ID := filterEcho req.category_id
        Total_Products :=
          (formatFrom (check_seller_eligibility token up.eligOutcome) 1 finalProducts).length
        Products :=
          formatFrom (check_seller_eligibility token up.eligOutcome) 1 finalProducts }

/-- Projection of a success result (degenerate response otherwise),
used to state closed witness facts about concrete runs. -/
def exOk (e : Except ApiError AnalysisResponse) : AnalysisResponse :=
  match e with
  | Except.ok r => r
  | Except.error _ =>
      { Seller := "", Marketplace := "", Filter_Category_ID := FilterEcho.noneStr,
        Total_Products := 0, Products := [] }

/-- The price rule as the specification words it: the first
strictly-positive value in the priority-ordered slot list (used to
compare the source's fallback chain against the spec). -/
def firstPositive : List Int → Option Int
  | [] => none
  | x :: xs => if x > 0 then some x else firstPositive xs

/-- The rank slot of a snapshot: `current_data[3]` when in range. -/
def rankSlot (p : RawProduct) : Option Int :=
  (p.current.getD (List.replicate 25 0)).get? 3

/-! ## Shared helper lemmas -/

theorem getIdx_ok {l : List Int} {n : Nat} (h : n < l.length) :
    getIdx l n = Except.ok (l.getD n 0) := by
  unfold getIdx
  rw [List.get?_eq_get h]
  rw [List.getD_eq_getElem l 0 h]
  rfl

theorem formatFrom_length (elig : EligibilityDict) (i : Nat) (l : List Details) :
    (formatFrom elig i l).length = l.length := by
  induction l generalizing i with
  | nil => rfl
  | cons p rest ih => simp [formatFrom, ih]

theorem mem_formatFrom {elig : EligibilityDict} {i : Nat} {l : List Details}
    {fp : FormattedProduct} (h : fp ∈ formatFrom elig i l) :
    ∃ d ∈ l, ∃ j, fp = formatOne elig j d := by
  induction l generalizing i with
  | nil => simp [formatFrom] at h
  | cons p rest ih =>
      simp only [formatFrom, List.mem_cons] at h
      rcases h with h | h
      · exact ⟨p, List.mem_cons_self _ _, i, h⟩
      · rcases ih h with ⟨d, hd, j, hj⟩
        exact ⟨d, List.mem_cons_of_mem _ hd, j, hj⟩

theorem chain_eq_firstPositive (a b c d : Int) :
    (if a > 0 then Except.ok a else if b > 0 then Except.ok b
     else if c > 0 then Except.ok c else if d > 0 then Except.ok d
     else Except.ok (0 : Int) : Except String Int)
      = Except.ok ((firstPositive [a, b, c, d]).getD 0) := by
  by_cases ha : a > 0 <;> by_cases hb : b > 0 <;> by_cases hc : c > 0 <;>
    by_cases hd : d > 0 <;> simp [firstPositive, ha, hb, hc, hd]

theorem pipelineFiltered_ok_keep {req : SellerRequest} {up : Upstream} {l : List Details}
    (h : pipelineFiltered req up = Except.ok l) :
    ∀ d ∈ l, keepProduct (requestedCategoryStr req.category_id) d = true := by
  unfold pipelineFiltered at h
  split at h
  · exact absurd h (by simp)
  · split at h
    · exact absurd h (by simp)
    · split at h
      · exact absurd h (by simp)
      · split at h
        · exact absurd h (by simp)
        · split at h
          · exact absurd h (by simp)
          · injection h with h
            subst h
            intro d hd
            exact List.of_mem_filter hd

theorem analyze_ok_inv {token : String} {req : SellerRequest} {up : Upstream}
    {resp : AnalysisResponse} (h : analyze_seller token req up = Except.ok resp) :
    ∃ finalProducts, pipelineFiltered req up = Except.ok finalProducts ∧
      resp.Products =
        formatFrom (check_seller_eligibility token up.eligOutcome) 1 finalProducts ∧
      resp.Filter_Category_ID = filterEcho req.category_id := by
  unfold analyze_seller at h
  split at h
  · exact absurd h (by simp)
  · rename_i finalProducts heq
    injection h with h
    subst h
    exact ⟨finalProducts, heq, rfl, rfl⟩

/-! ## Concrete fixtures used by witness statements -/

/-- A snapshot with category 100, rank 37, Buy-Box price 1999 cents. -/
def wRaw1 : RawProduct :=
  { asin := some "A1", title := some "T1", brand := some "B1",
    rootCategory := some 100,
    current := some (((List.replicate 25 0).set 0 1999).set 3 37),
    image := some "http://img/1.jpg", imagesCSV := none,
    rating := some 45, reviewCount := some 1234 }

/-- A snapshot with category 200 and no price/rank/rating signals. -/
def wRaw2 : RawProduct :=
  { asin := some "A2", title := some "T2", brand := some "B2",
    rootCategory := some 200,
    current := some (List.replicate 25 0),
    image := none, imagesCSV := some "abc.jpg,def.jpg",
    rating := none, reviewCount := none }

/-- An upstream world: discovery returns two identifiers, enrichment
two snapshots, category lookups fail except id 100, eligibility
answers 200 with one verdict per identifier. -/
def wUp : Upstream :=
  { finderResult := ProviderResult.ok ["A1", "A2"],
    queryResult := ProviderResult.ok [wRaw1, wRaw2],
    categoryLookup := fun c =>
      if c == 100 then ProviderResult.ok (some (some "Cat100")) else ProviderResult.exn "boom",
    eligOutcome := HttpOutcome.response 200
      (RespJson.items [⟨some "A1", true⟩, ⟨some "A2", false⟩]) "" }

/-- A request with a category filter. -/
def wReq : SellerRequest := { seller_id := "S1", marketplace := "us", category_id := some 100 }

/-- The same request with no category filter. -/
def wReqN : SellerRequest := { seller_id := "S1", marketplace := "us", category_id := none }

/-- A degenerate formatted product, used only as a `getD` default. -/
def wFP : FormattedProduct :=
  ⟨0, "", "", "", none, 0, "", "", "", "", "", "", none⟩

/-! ## Claims -/

/-- C1: for every request and upstream response, each product record
present in the final analysis result is the image of a record of the
pipeline's strictly filtered `final_products` list, and that record
satisfies: the request's category filter is unset
(`requestedCategoryStr req.category_id = none`), or its category id
equals the requested category id — strict local reconciliation,
regardless of what the discovery-stage provider filter returned. -/
theorem c1_strict_category_reconciliation (token : String) (req : SellerRequest)
    (up : Upstream) (resp : AnalysisResponse)
    (h : analyze_seller token req up = Except.ok resp)
    (fp : FormattedProduct) (hfp : fp ∈ resp.Products) :
    ∃ finalProducts, pipelineFiltered req up = Except.ok finalProducts ∧
      ∃ d ∈ finalProducts,
        (∃ j, fp = formatOne (check_seller_eligibility token up.eligOutcome) j d) ∧
        fp.ASIN = d.asin ∧
        ∀ s, requestedCategoryStr req.category_id = some s → cidStr d.category_id = s := by
  rcases analyze_ok_inv h with ⟨finalProducts, hpf, hprod, _⟩
  rw [hprod] at hfp
  rcases mem_formatFrom hfp with ⟨d, hd, j, hj⟩
  refine ⟨finalProducts, hpf, d, hd, ⟨j, hj⟩, ?_, ?_⟩
  · rw [hj]; rfl
  · intro s hs
    have hk := pipelineFiltered_ok_keep hpf d hd
    rw [hs] at hk
    simpa [keepProduct] using hk

/-- C1 witness: a concrete filtered run (category filter 100, snapshots
of categories 100 and 200). -/
theorem c1_strict_category_reconciliation_witness :
    ∃ finalProducts, pipelineFiltered wReq wUp = Except.ok finalProducts ∧
      ∃ d ∈ finalProducts,
        (∃ j, (exOk (analyze_seller "tok" wReq wUp)).Products.getD 0 wFP
            = formatOne (check_seller_eligibility "tok" wUp.eligOutcome) j d) ∧
        ((exOk (analyze_seller "tok" wReq wUp)).Products.getD 0 wFP).ASIN = d.asin ∧
        ∀ s, requestedCategoryStr wReq.category_id = some s → cidStr d.category_id = s :=
  c1_strict_category_reconciliation "tok" wReq wUp
    (exOk (analyze_seller "tok" wReq wUp)) (by rfl)
    ((exOk (analyze_seller "tok" wReq wUp)).Products.getD 0 wFP) (by decide)

/-- C2: the claim says a zero or absent rank signal yields the slow
bucket and is not displayed as rank 0.  The code stores `sales_rank
or 0`, so a zero/absent rank is stored as `0`, which satisfies
`0 < 50000` and is tagged with the fast bucket, and the response
displays `SalesRank = 0`.  This closed theorem evaluates the embedded
pipeline at such an input: snapshot `wRaw2` has rank slot 0, and its
formatted record (second product of the unfiltered run) comes out
fast, with rank displayed as 0. -/
theorem c2_zero_rank_tagged_fast :
    rankSlot wRaw2 = some 0
    ∧ ((exOk (analyze_seller "tok" wReqN wUp)).Products.getD 1 wFP).SalesRank = 0
    ∧ ((exOk (analyze_seller "tok" wReqN wUp)).Products.getD 1 wFP).Velocity
        = "🚀 YES (< 50K)"
    ∧ "🚀 YES (< 50K)" ≠ "SLOW (> 50K)" := by
  refine ⟨rfl, ?_, ?_, by decide⟩ <;> rfl

/-- C3: for any slot list long enough for the whole chain, the
extracted price in cents is the first strictly-positive value of the
four price slots in priority order (current Buy-Box slot 0, then the
alternate slots 13, 7, 1), as `firstPositive` words the spec; and when
no slot is strictly positive the formatted price is the `"N/A"`
sentinel, never `"$0.00"`. -/
theorem c3_price_fallback_chain (l : List Int) (h : 14 ≤ l.length) :
    extractPriceCents l =
      Except.ok ((firstPositive [l.getD 0 0, l.getD 13 0, l.getD 7 0, l.getD 1 0]).getD 0)
    ∧ (firstPositive [l.getD 0 0, l.getD 13 0, l.getD 7 0, l.getD 1 0] = none →
        priceField ((firstPositive [l.getD 0 0, l.getD 13 0, l.getD 7 0, l.getD 1 0]).getD 0)
            = "N/A"
          ∧ priceField
              ((firstPositive [l.getD 0 0, l.getD 13 0, l.getD 7 0, l.getD 1 0]).getD 0)
            ≠ "$0.00") := by
  have h0 : 0 < l.length := by omega
  have h1 : 1 < l.length := by omega
  have h7 : 7 < l.length := by omega
  have h13 : 13 < l.length := by omega
  constructor
  · unfold extractPriceCents
    rw [getIdx_ok h0, getIdx_ok h13, getIdx_ok h7, getIdx_ok h1]
    exact chain_eq_firstPositive (l.getD 0 0) (l.getD 13 0) (l.getD 7 0) (l.getD 1 0)
  · intro hnone
    rw [hnone]
    exact ⟨rfl, by decide⟩

/-- C3 witness: signals (0,0,0,5) in priority order — slots 0, 13, 7
all zero and slot 1 equal to 5 — extract the fourth slot's value. -/
theorem c3_price_fallback_chain_witness :
    14 ≤ ((List.replicate 25 (0 : Int)).set 1 5).length
    ∧ extractPriceCents ((List.replicate 25 (0 : Int)).set 1 5) = Except.ok 5 :=
  ⟨by decide, (c3_price_fallback_chain ((List.replicate 25 (0 : Int)).set 1 5) (by decide)).1⟩

/-- A failed eligibility dict (`success: False`, no `data`) parses to
the `API Error` status for every identifier. -/
theorem parse_fail_status {d : EligibilityDict} (hs : d.success = some false)
    (hd : d.data = none) (a : String) :
    (parse_eligibility_result (some d) a).1 = "❓ API Error" := by
  simp [parse_eligibility_result, hd, hs]

/-- Projection of a success pipeline prefix (empty list otherwise),
used to state closed witness facts about concrete runs. -/
def exOkD (e : Except ApiError (List Details)) : List Details :=
  match e with
  | Except.ok l => l
  | Except.error _ => []

/-- C4: the eligibility client never throws for HTTP-level failures —
an empty credential, a non-200 status or a transport exception all
yield the structured `success = false` dict — and when the eligibility
provider fails with an HTTP 500, every filtered product record still
appears in the final output annotated with the `API Error` eligibility
status, rather than the request failing. -/
theorem c4_eligibility_failure_absorbed (token : String) (req : SellerRequest)
    (up : Upstream) (finalProducts : List Details) (body : RespJson) (text : String)
    (h1 : pipelineFiltered req up = Except.ok finalProducts)
    (h2 : up.eligOutcome = HttpOutcome.response 500 body text) :
    (∀ (tok : String) (outcome : HttpOutcome),
        (tok = "" ∨ (∃ s b t, outcome = HttpOutcome.response s b t ∧ s ≠ 200)
            ∨ (∃ m, outcome = HttpOutcome.exn m)) →
        (check_seller_eligibility tok outcome).success = some false)
    ∧ ∃ resp, analyze_seller token req up = Except.ok resp
        ∧ resp.Products.length = finalProducts.length
        ∧ ∀ fp ∈ resp.Products, fp.Eligibility = "❓ API Error" := by
  constructor
  · intro tok outcome hcase
    by_cases htok : tok = ""
    · simp [check_seller_eligibility, htok]
    · rcases hcase with h | ⟨s, b, t, rfl, hs⟩ | ⟨m, rfl⟩
      · exact absurd h htok
      · simp [check_seller_eligibility, htok, hs]
      · simp [check_seller_eligibility, htok]
  · refine ⟨{ Seller := req.seller_id
              Marketplace := pyUpper req.marketplace
              Filter_Category_ID := filterEcho req.category_id
              Total_Products := (formatFrom (check_seller_eligibility token up.eligOutcome) 1 finalProducts).length
              Products := formatFrom (check_seller_eligibility token up.eligOutcome) 1 finalProducts },
      ?_, ?_, ?_⟩
    · unfold analyze_seller
      rw [h1]
    · exact formatFrom_length _ _ _
    · intro fp hfp
      rcases mem_formatFrom hfp with ⟨d, _, j, hj⟩
      rw [hj]
      show (parse_eligibility_result (some (check_seller_eligibility token up.eligOutcome))
        d.asin).1 = "❓ API Error"
      rw [h2]
      by_cases htok : token = ""
      · exact parse_fail_status (by simp [check_seller_eligibility, htok])
          (by simp [check_seller_eligibility, htok]) d.asin
      · exact parse_fail_status (by simp [check_seller_eligibility, htok])
          (by simp [check_seller_eligibility, htok]) d.asin

/-- C4 witness: a concrete run whose eligibility provider answers
HTTP 500; the pipeline still succeeds and every record carries the
`API Error` status. -/
theorem c4_eligibility_failure_absorbed_witness :
    ∃ resp, analyze_seller "tok" wReqN
        { wUp with eligOutcome := HttpOutcome.response 500 RespJson.nonList "boom" }
        = Except.ok resp
      ∧ resp.Products.length =
          (exOkD (pipelineFiltered wReqN
            { wUp with eligOutcome := HttpOutcome.response 500 RespJson.nonList "boom" })).length
      ∧ ∀ fp ∈ resp.Products, fp.Eligibility = "❓ API Error" :=
  (c4_eligibility_failure_absorbed "tok" wReqN
    { wUp with eligOutcome := HttpOutcome.response 500 RespJson.nonList "boom" }
    (exOkD (pipelineFiltered wReqN
      { wUp with eligOutcome := HttpOutcome.response 500 RespJson.nonList "boom" }))
    RespJson.nonList "boom" (by rfl) (by rfl)).2

/-- The two not-found messages differ for every requested category
(different fixed prefixes and suffixes, hence different lengths). -/
theorem notfound_msgs_distinct (cid : Option Int) :
    discoveryNotFoundMsg cid ≠ postFilterNotFoundMsg cid := by
  cases cid with
  | none => decide
  | some c =>
      by_cases hc : c = 0
      · subst hc; decide
      · intro he
        have hlen := congrArg String.length he
        simp only [discoveryNotFoundMsg, postFilterNotFoundMsg, catIdRepr, if_pos hc,
          String.length_append] at hlen
        have l1 : ("No ASINs found for this seller" : String).length = 30 := by decide
        have l2 : (" in Category ID " : String).length = 16 := by decide
        have l3 : ("." : String).length = 1 := by decide
        have l4 : ("No products matched the Seller ID and the strict filter for Category ID " : String).length = 72 := by decide
        have l5 : (" after fetching." : String).length = 16 := by decide
        rw [l1, l2, l3, l4, l5] at hlen
        omega

/-- C5: every 404 raised by the pipeline is one of exactly two
not-found failures — empty discovery result, or empty post-filter set
when a category filter was requested — and the two carry distinct
stage-specific messages, so a caller can tell discovery-empty from
post-filter-empty. -/
theorem c5_two_not_found_points (token : String) (req : SellerRequest)
    (up : Upstream) (m : String)
    (h : analyze_seller token req up = Except.error (ApiError.http 404 m)) :
    (m = discoveryNotFoundMsg req.category_id ∨ m = postFilterNotFoundMsg req.category_id)
    ∧ discoveryNotFoundMsg req.category_id ≠ postFilterNotFoundMsg req.category_id := by
  refine ⟨?_, notfound_msgs_distinct req.category_id⟩
  unfold analyze_seller at h
  split at h
  · rename_i e heq
    injection h with h
    subst h
    unfold pipelineFiltered at heq
    split at heq
    · simp at heq
    · split at heq
      · simp at heq
      · split at heq
        · simp at heq
          exact Or.inl heq.symm
        · split at heq
          · simp at heq
          · split at heq
            · simp at heq
              exact Or.inr heq.symm
            · simp at heq
  · simp at h

/-- C5 witness: a concrete run with an empty discovery result hits
the first not-found point. -/
theorem c5_two_not_found_points_witness :
    ("No ASINs found for this seller." = discoveryNotFoundMsg wReqN.category_id
        ∨ "No ASINs found for this seller." = postFilterNotFoundMsg wReqN.category_id)
    ∧ discoveryNotFoundMsg wReqN.category_id ≠ postFilterNotFoundMsg wReqN.category_id :=
  c5_two_not_found_points "tok" wReqN { wUp with finderResult := ProviderResult.ok [] }
    "No ASINs found for this seller." (by rfl)

/-- C6: marketplace validation is case-insensitive over the fixed set
{US, UK, DE, FR, JP, CA} — the decision depends only on the
upper-cased marketplace — and an invalid marketplace yields the 400
validation error with a result independent of every provider response
(so no downstream stage runs); a valid marketplace can never produce
the 400 validation error. -/
theorem c6_marketplace_validation (token : String) (req : SellerRequest) (up : Upstream) :
    (¬ DOMAIN_MAP_KEYS.contains (pyUpper req.marketplace) = true →
        analyze_seller token req up
            = Except.error (ApiError.http 400 (unsupportedMsg req.marketplace))
          ∧ ∀ up2, analyze_seller token req up2 = analyze_seller token req up)
    ∧ (DOMAIN_MAP_KEYS.contains (pyUpper req.marketplace) = true →
        ∀ m, analyze_seller token req up ≠ Except.error (ApiError.http 400 m)) := by
  constructor
  · intro hinv
    have hbase : analyze_seller token req up
        = Except.error (ApiError.http 400 (unsupportedMsg req.marketplace)) := by
      unfold analyze_seller pipelineFiltered
      rw [if_pos hinv]
    refine ⟨hbase, fun up2 => ?_⟩
    have h2 : analyze_seller token req up2
        = Except.error (ApiError.http 400 (unsupportedMsg req.marketplace)) := by
      unfold analyze_seller pipelineFiltered
      rw [if_pos hinv]
    rw [h2, hbase]
  · intro hval m hcontra
    unfold analyze_seller at hcontra
    split at hcontra
    · rename_i e heq
      injection hcontra with hcontra
      subst hcontra
      unfold pipelineFiltered at heq
      rw [if_neg (not_not_intro hval)] at heq
      split at heq
      · simp at heq
      · split at heq
        · simp at heq
        · split at heq
          · simp at heq
          · split at heq
            · simp at heq
            · simp at heq
    · simp at hcontra

/-- C6 witness: the invalid marketplace `"zz"` is rejected with the
validation error on a concrete run. -/
theorem c6_marketplace_validation_witness :
    ¬ DOMAIN_MAP_KEYS.contains (pyUpper "zz") = true
    ∧ analyze_seller "tok" ⟨"S1", "zz", none⟩ wUp
        = Except.error (ApiError.http 400 (unsupportedMsg "zz")) :=
  ⟨by decide,
    ((c6_marketplace_validation "tok" ⟨"S1", "zz", none⟩ wUp).1 (by decide)).1⟩

/-- An identifier matching no item of the list yields no verdict. -/
theorem findVerdict_eq_none {l : List EligItem} {a : String}
    (h : ∀ it ∈ l, it.asin ≠ some a) : findVerdict l a = none := by
  induction l with
  | nil => rfl
  | cons it rest ih =>
      have hb : (it.asin == some a) = false := by
        simpa using h it (List.mem_cons_self _ _)
      have hstep : findVerdict (it :: rest) a = findVerdict rest a := by
        simp [findVerdict, hb]
      rw [hstep]
      exact ih (fun j hj => h j (List.mem_cons_of_mem _ hj))

/-- The first item matching the identifier decides the verdict. -/
theorem findVerdict_first {a : String} (pre post : List EligItem) (it : EligItem)
    (hpre : ∀ j ∈ pre, j.asin ≠ some a) (hit : it.asin = some a) :
    findVerdict (pre ++ it :: post) a = some it.isEligible := by
  induction pre with
  | nil => simp [findVerdict, hit]
  | cons j rest ih =>
      have hb : (j.asin == some a) = false := by
        simpa using hpre j (List.mem_cons_self _ _)
      have hstep : findVerdict (j :: (rest ++ it :: post)) a
          = findVerdict (rest ++ it :: post) a := by
        simp [findVerdict, hb]
      rw [List.cons_append, hstep]
      exact ih (fun k hk => hpre k (List.mem_cons_of_mem _ hk))

/-- C7: for every filtered record, the eligibility verdict is resolved
from the single eligibility response by exact identifier match — the
first item whose identifier equals the record's decides Eligible or
Restricted — and an identifier absent from a successful response
yields the Not-Found (Unknown) verdict rather than an error; the
eligibility step never turns a successful pipeline prefix into a
failure. -/
theorem c7_verdict_exact_match (d : EligibilityDict) (l : List EligItem) (a : String)
    (hd : d.data = some (RespJson.items l)) :
    ((∀ it ∈ l, it.asin ≠ some a) →
        parse_eligibility_result (some d) a
          = ("⚠️ Not Found", "ASIN not found in eligibility results"))
    ∧ (∀ (pre post : List EligItem) (it : EligItem),
        l = pre ++ it :: post → (∀ j ∈ pre, j.asin ≠ some a) → it.asin = some a →
        parse_eligibility_result (some d) a
          = (if it.isEligible
             then ("✅ Eligible", "Seller is eligible to sell this product")
             else ("❌ Restricted", "Seller is not eligible to sell this product")))
    ∧ (∀ (token : String) (req : SellerRequest) (up : Upstream) finalProducts,
        pipelineFiltered req up = Except.ok finalProducts →
        ∃ resp, analyze_seller token req up = Except.ok resp) := by
  refine ⟨?_, ?_, ?_⟩
  · intro habsent
    simp [parse_eligibility_result, hd, findVerdict_eq_none habsent]
  · intro pre post it hsplit hpre hit
    subst hsplit
    by_cases he : it.isEligible
    · simp [parse_eligibility_result, hd, findVerdict_first pre post it hpre hit, he]
    · simp [parse_eligibility_result, hd, findVerdict_first pre post it hpre hit, he]
  · intro token req up finalProducts hpf
    refine ⟨{ Seller := req.seller_id
              Marketplace := pyUpper req.marketplace
              Filter_Category_ID := filterEcho req.category_id
              Total_Products := (formatFrom (check_seller_eligibility token up.eligOutcome) 1 finalProducts).length
              Products := formatFrom (check_seller_eligibility token up.eligOutcome) 1 finalProducts }, ?_⟩
    unfold analyze_seller
    rw [hpf]

/-- C7 witness: a successful response listing only other identifiers
yields the Not-Found verdict for `"AX"`. -/
theorem c7_verdict_exact_match_witness :
    (⟨some true, some (RespJson.items [⟨some "A1", true⟩]), none, none⟩ :
        EligibilityDict).data = some (RespJson.items [⟨some "A1", true⟩])
    ∧ parse_eligibility_result
        (some ⟨some true, some (RespJson.items [⟨some "A1", true⟩]), none, none⟩) "AX"
        = ("⚠️ Not Found", "ASIN not found in eligibility results") :=
  ⟨rfl,
    (c7_verdict_exact_match ⟨some true, some (RespJson.items [⟨some "A1", true⟩]), none, none⟩
      [⟨some "A1", true⟩] "AX" rfl).1 (by decide)⟩

/-- A snapshot with an identifier but a truncated price-slot list:
slot 0 is 0 (not positive), and slot 13 does not exist. -/
def wRawShort : RawProduct :=
  { asin := some "A3", title := none, brand := none, rootCategory := none,
    current := some [0], image := none, imagesCSV := none,
    rating := none, reviewCount := none }

/-- C8 counterexample: the enrichment step can raise even though the
provider call succeeded — a single snapshot whose price-slot list is
too short for the fallback chain aborts the whole batch with the
enrichment error, refuting "raises only on total provider/transport
failure, never because of individual malformed records". -/
theorem c8_short_snapshot_aborts_batch :
    extractOne wRawShort = Except.error "list index out of range"
    ∧ get_product_details_batch ["A3"] (ProviderResult.ok [wRawShort])
        = Except.error "Product details error: list index out of range" :=
  ⟨rfl, rfl⟩

/-- Each snapshot extracting without an exception makes the whole
batch loop succeed, with at most one output per snapshot. -/
theorem runExtract_total {ps : List RawProduct}
    (hps : ∀ p ∈ ps, ∃ o, extractOne p = Except.ok o) :
    ∃ ds, runExtract ps = Except.ok ds ∧ ds.length ≤ ps.length := by
  induction ps with
  | nil => exact ⟨[], rfl, Nat.le_refl 0⟩
  | cons p rest ih =>
      rcases hps p (List.mem_cons_self _ _) with ⟨o, ho⟩
      rcases ih (fun q hq => hps q (List.mem_cons_of_mem _ hq)) with ⟨ds, hds, hlen⟩
      cases o with
      | none =>
          refine ⟨ds, ?_, Nat.le_succ_of_le hlen⟩
          rw [runExtract, ho, hds]
      | some d =>
          refine ⟨d :: ds, ?_, Nat.succ_le_succ hlen⟩
          rw [runExtract, ho, hds]

/-- C8 (amended): the detail-enrichment step returns an empty record
list on an empty identifier list for every provider behaviour (no
remote call is consulted); a total provider failure yields the
enrichment error; a snapshot lacking a stable identifier is silently
skipped, so the output may be shorter than the snapshot list; and
whenever every snapshot extracts without an exception the batch
succeeds.  (Unlike the original claim, an individual snapshot whose
price-slot list is too short for the fallback chain does abort the
batch: see the counterexample.) -/
theorem c8_enrichment_amended :
    (∀ q, get_product_details_batch [] q = Except.ok [])
    ∧ (∀ (asins : List String) (m : String), asins ≠ [] →
        get_product_details_batch asins (ProviderResult.exn m)
          = Except.error ("Product details error: " ++ m))
    ∧ (∀ (p : RawProduct) (rest : List RawProduct), p.asin = none →
        runExtract (p :: rest) = runExtract rest)
    ∧ (∀ (asins : List String) (ps : List RawProduct), asins ≠ [] →
        (∀ p ∈ ps, ∃ o, extractOne p = Except.ok o) →
        ∃ ds, get_product_details_batch asins (ProviderResult.ok ps) = Except.ok ds
          ∧ ds.length ≤ ps.length) := by
  refine ⟨fun q => rfl, ?_, ?_, ?_⟩
  · intro asins m hne
    unfold get_product_details_batch
    rw [if_neg (by simpa using hne)]
  · intro p rest hp
    rw [runExtract, show extractOne p = Except.ok none by rw [extractOne, hp]]
  · intro asins ps hne hps
    rcases runExtract_total hps with ⟨ds, hds, hlen⟩
    refine ⟨ds, ?_, hlen⟩
    unfold get_product_details_batch
    rw [if_neg (by simpa using hne)]
    show (match runExtract ps with
        | Except.error e => Except.error ("Product details error: " ++ e)
        | Except.ok ds => Except.ok ds)
      = Except.ok ds
    rw [hds]

/-- C8 witness: a non-empty batch where one snapshot lacks the
identifier is skipped and the rest extract, so the output is shorter
than the input. -/
theorem c8_enrichment_amended_witness :
    ∃ ds, get_product_details_batch ["A1"]
        (ProviderResult.ok [⟨none, none, none, none, none, none, none, none, none⟩, wRaw1])
        = Except.ok ds
      ∧ ds.length ≤ 2 :=
  c8_enrichment_amended.2.2.2 ["A1"]
    [⟨none, none, none, none, none, none, none, none, none⟩, wRaw1] (by decide)
    (by
      intro p hp
      rcases (List.mem_cons.mp hp) with h | h
      · exact ⟨none, by rw [h]; rfl⟩
      · rcases (List.mem_cons.mp h) with h2 | h2
        · exact ⟨_, by rw [h2]; rfl⟩
        · exact absurd h2 (List.not_mem_nil p))

/-- C9: the pipeline is deterministic — for a fixed request and
identical responses from the discovery, enrichment, category-lookup
and eligibility providers, two invocations of `analyze_seller` produce
identical analysis results (the whole response, hence also identical
ordering and 1-based indices). -/
theorem c9_pipeline_deterministic (token : String) (req : SellerRequest)
    (up1 up2 : Upstream)
    (hf : up1.finderResult = up2.finderResult)
    (hq : up1.queryResult = up2.queryResult)
    (hc : ∀ c, up1.categoryLookup c = up2.categoryLookup c)
    (he : up1.eligOutcome = up2.eligOutcome) :
    analyze_seller token req up1 = analyze_seller token req up2 := by
  have hup : up1 = up2 := by
    cases up1
    cases up2
    simp only at hf hq hc he
    subst hf
    subst hq
    subst he
    congr 1
    exact funext hc
  rw [hup]

/-- C9 witness: a concrete double invocation on equal provider
responses. -/
theorem c9_pipeline_deterministic_witness :
    analyze_seller "tok" wReq wUp = analyze_seller "tok" wReq wUp :=
  c9_pipeline_deterministic "tok" wReq wUp wUp rfl rfl (fun _ => rfl) rfl

/-- A request with `category_id = 0`. -/
def wReq0 : SellerRequest := { seller_id := "S1", marketplace := "us", category_id := some 0 }

/-- C10: a request whose category id equals 0 is handled exactly like
a request with no category filter, given the same provider responses:
the whole analysis result coincides (so the strict filter keeps every
category and the post-filter not-found error cannot fire), and the
echoed filter field is the `None` sentinel rather than 0. -/
theorem c10_zero_category_as_none (token : String) (s m : String) (up : Upstream) :
    analyze_seller token ⟨s, m, some 0⟩ up = analyze_seller token ⟨s, m, none⟩ up
    ∧ ∀ resp, analyze_seller token ⟨s, m, some 0⟩ up = Except.ok resp →
        resp.Filter_Category_ID = FilterEcho.noneStr := by
  constructor
  · have hpipe : pipelineFiltered ⟨s, m, some 0⟩ up = pipelineFiltered ⟨s, m, none⟩ up := by
      unfold pipelineFiltered
      simp [requestedCategoryStr, discoveryNotFoundMsg, finalProductsOf]
    unfold analyze_seller
    rw [hpipe]
    rfl
  · intro resp h
    rcases analyze_ok_inv h with ⟨_, _, _, hecho⟩
    rw [hecho]
    rfl

/-- C10 witness: a concrete run where the 0 filter behaves as no
filter and the response echoes the sentinel. -/
theorem c10_zero_category_as_none_witness :
    analyze_seller "tok" wReq0 wUp = analyze_seller "tok" wReqN wUp
    ∧ (exOk (analyze_seller "tok" wReq0 wUp)).Filter_Category_ID = FilterEcho.noneStr :=
  ⟨(c10_zero_category_as_none "tok" "S1" "us" wUp).1,
    (c10_zero_category_as_none "tok" "S1" "us" wUp).2
      (exOk (analyze_seller "tok" wReq0 wUp)) (by rfl)⟩

/-- Inversion of one extraction: the stored `sales_rank` field is the
rank slot's value when strictly positive, and 0 otherwise (`sales_rank
or 0` over a slot used only when present and positive). -/
theorem salesRankField (cur : List Int) :
    (if h : 3 < cur.length then
        (if cur.get ⟨3, h⟩ > 0 then some (cur.get ⟨3, h⟩) else none)
      else none).getD 0
      = (match cur.get? 3 with
         | some r => if 0 < r then r else 0
         | none => 0) := by
  by_cases h3 : 3 < cur.length
  · rw [dif_pos h3, List.get?_eq_get h3]
    by_cases hpos : cur.get ⟨3, h3⟩ > 0
    · rw [if_pos hpos]
      exact (if_pos hpos).symm
    · rw [if_neg hpos]
      exact (if_neg hpos).symm
  · rw [dif_neg h3, List.get?_eq_none.mpr (Nat.le_of_not_lt h3)]
    rfl

theorem extractOne_sales_rank {p : RawProduct} {d : Details}
    (h : extractOne p = Except.ok (some d)) :
    d.sales_rank = (match rankSlot p with
      | some r => if 0 < r then r else 0
      | none => 0) := by
  cases hasin : p.asin with
  | none => rw [extractOne, hasin] at h; exact absurd h (by simp)
  | some a =>
      cases hpc : extractPriceCents (p.current.getD (List.replicate 25 0)) with
      | error e =>
          rw [extractOne, hasin] at h
          simp only [hpc] at h
          exact absurd h (by simp)
      | ok cents =>
          rw [extractOne, hasin] at h
          simp only [hpc, Except.ok.injEq, Option.some.injEq] at h
          subst h
          exact salesRankField (p.current.getD (List.replicate 25 0))

/-- C2 (amended): the velocity tag is the fast bucket exactly when the
stored sales rank is strictly below 50000, where the stored rank is
the rank slot's value when strictly positive and 0 otherwise; so a
present positive rank below 50000 is fast, a rank at or above 50000 is
slow, and a zero or absent rank signal is stored as 0, tagged with the
fast bucket, and displayed as `SalesRank = 0` (not suppressed). -/
theorem c2_velocity_amended (p : RawProduct) (d : Details)
    (h : extractOne p = Except.ok (some d)) (elig : EligibilityDict) (i : Nat) :
    ((formatOne elig i d).Velocity = "🚀 YES (< 50K)" ↔ d.sales_rank < 50000)
    ∧ (formatOne elig i d).SalesRank = d.sales_rank
    ∧ d.sales_rank = (match rankSlot p with
        | some r => if 0 < r then r else 0
        | none => 0) := by
  refine ⟨?_, rfl, extractOne_sales_rank h⟩
  have hvel : (formatOne elig i d).Velocity
      = (if d.sales_rank < 50000 then "🚀 YES (< 50K)" else "SLOW (> 50K)") := rfl
  rw [hvel]
  by_cases hlt : d.sales_rank < 50000
  · rw [if_pos hlt]
    exact iff_of_true rfl hlt
  · rw [if_neg hlt]
    exact iff_of_false (by decide) hlt

/-- A degenerate details record, used only as a `getD` default. -/
def wD : Details := ⟨"", "", "", none, none, 0, 0, 0, "", "", none⟩

/-- Projection of a success extraction batch (empty list otherwise). -/
def exOkL (e : Except String (List Details)) : List Details :=
  match e with
  | Except.ok l => l
  | Except.error _ => []

/-- C2 witness: the spec's own positive example — rank slot 37 —
yields a stored and displayed rank of 37 and the fast bucket. -/
theorem c2_velocity_amended_witness :
    extractOne wRaw1 = Except.ok (some ((exOkL (runExtract [wRaw1])).getD 0 wD))
    ∧ ((formatOne ⟨some true, none, none, none⟩ 1
          ((exOkL (runExtract [wRaw1])).getD 0 wD)).Velocity = "🚀 YES (< 50K)"
        ↔ ((exOkL (runExtract [wRaw1])).getD 0 wD).sales_rank < 50000)
    ∧ (formatOne ⟨some true, none, none, none⟩ 1
          ((exOkL (runExtract [wRaw1])).getD 0 wD)).SalesRank
        = ((exOkL (runExtract [wRaw1])).getD 0 wD).sales_rank :=
  ⟨by rfl,
    (c2_velocity_amended wRaw1 ((exOkL (runExtract [wRaw1])).getD 0 wD) (by rfl)
      ⟨some true, none, none, none⟩ 1).1,
    (c2_velocity_amended wRaw1 ((exOkL (runExtract [wRaw1])).getD 0 wD) (by rfl)
      ⟨some true, none, none, none⟩ 1).2.1⟩

end Storefront
